import Mathlib

/-!
Verification of the Vue-Optional-Helper library: a shallow embedding of
`src/Optional.ts`, `src/ReactiveOptional.ts` and the `useMaybe` composable,
with theorems settling the specification claims about them.

The host language has two distinct absence markers (`null` and `undefined`);
a raw nullable value is therefore a three-case sum `Nullable`.  JavaScript
`Error` objects are modelled by their message.  Promises are modelled by
their settlement: `Except Error a` (`.ok` = fulfilled, `.error` = rejected).
Side-effect observations that the spec asks about (how often a user-supplied
callback is invoked, what is reported to the console) are captured by
`...Probe` companions whose control flow mirrors the source function exactly.
-/

namespace VueOptional

/-- A raw nullable value: either the `undefined` marker, the `null` marker,
or an actual value of type `T`.  Models the TS type `T | null | undefined`. -/
inductive Nullable (T : Type) where
  | undefined : Nullable T
  | null : Nullable T
  | val : T → Nullable T
deriving Repr, DecidableEq

/-- Whether a raw nullable value is one of the two absence markers
(`value === null || value === undefined`). -/
def Nullable.isAbsent {T : Type} : Nullable T → Bool
  | .undefined => true
  | .null => true
  | .val _ => false

/-- Models a host-language `Error` object by its message. -/
structure Error where
  message : String
deriving Repr, DecidableEq

/-- The `Optional<T>` value produced by `createOptional`: it closes over one
immutable raw nullable `value`; every observation is derived from it. -/
structure Optional (T : Type) where
  value : Nullable T
deriving Repr, DecidableEq

/-- `createOptional(value)`: wraps the raw nullable value. -/
def createOptional {T : Type} (value : Nullable T) : Optional T :=
  ⟨value⟩

/-- `isPresent()`: `value !== null && value !== undefined`. -/
def Optional.isPresent {T : Type} (o : Optional T) : Bool :=
  match o.value with
  | .val _ => true
  | _ => false

/-- `isEmpty()`: `value === null || value === undefined`. -/
def Optional.isEmpty {T : Type} (o : Optional T) : Bool :=
  match o.value with
  | .val _ => false
  | _ => true

/-- `unwrap()`: returns the raw underlying nullable value. -/
def Optional.unwrap {T : Type} (o : Optional T) : Nullable T :=
  o.value

/-- `get()`: throws `new Error('No value present in Optional')` when empty,
otherwise returns the held value.  Throwing is modelled by `Except`. -/
def Optional.get {T : Type} (o : Optional T) : Except Error T :=
  match o.value with
  | .val v => .ok v
  | _ => .error ⟨"No value present in Optional"⟩

/-- `map(mapper)`: empty receiver yields `createOptional(undefined)` without
invoking the mapper; present receiver wraps `mapper(value)`.  The mapper's
codomain is `Nullable R` because at run time a TS mapper may return an
absence marker even when its static type says `R`. -/
def Optional.map {T R : Type} (o : Optional T) (mapper : T → Nullable R) :
    Optional R :=
  match o.value with
  | .val v => createOptional (mapper v)
  | _ => createOptional .undefined

/-- Instrumented `map`: same control flow as `Optional.map`, additionally
returning how many times the mapper was invoked. -/
def Optional.mapProbe {T R : Type} (o : Optional T)
    (mapper : T → Nullable R) : Optional R × Nat :=
  match o.value with
  | .val v => (createOptional (mapper v), 1)
  | _ => (createOptional .undefined, 0)

/-- `map` with a mapper that may throw (`Except Error`).  The source contains
no try/catch around the mapper call, so a thrown error passes through. -/
def Optional.mapE {T R : Type} (o : Optional T)
    (mapper : T → Except Error (Nullable R)) : Except Error (Optional R) :=
  match o.value with
  | .val v =>
    match mapper v with
    | .ok mapped => .ok (createOptional mapped)
    | .error e => .error e
  | _ => .ok (createOptional .undefined)

/-- `flatMap(mapper)`: its body in the source is identical to `map`'s. -/
def Optional.flatMap {T R : Type} (o : Optional T)
    (mapper : T → Nullable R) : Optional R :=
  match o.value with
  | .val v => createOptional (mapper v)
  | _ => createOptional .undefined

/-- `filter(predicate)`: an empty receiver returns `createOptional(value)`
(keeping whichever absence marker is stored); a present receiver keeps the
value when the predicate holds and otherwise returns
`createOptional(undefined)`. -/
def Optional.filter {T : Type} (o : Optional T) (predicate : T → Bool) :
    Optional T :=
  match o.value with
  | .val v => if predicate v then createOptional (.val v)
              else createOptional .undefined
  | m => createOptional m

/-- `or(supplier)`: returns a wrapper of the held raw value when present,
otherwise the supplier's result. -/
def Optional.or {T : Type} (o : Optional T)
    (supplier : Unit → Optional T) : Optional T :=
  match o.value with
  | .val v => createOptional (.val v)
  | _ => supplier ()

/-- `orElse(other)`: held value when present, else the eager fallback. -/
def Optional.orElse {T : Type} (o : Optional T) (other : T) : T :=
  match o.value with
  | .val v => v
  | _ => other

/-- `orElseGet(supplier)`: held value when present, else the lazily
computed fallback. -/
def Optional.orElseGet {T : Type} (o : Optional T)
    (supplier : Unit → T) : T :=
  match o.value with
  | .val v => v
  | _ => supplier ()

/-- `orElseThrow(errorSupplier?)`: when empty, throws the supplied factory's
error if one was given, else the default error; when present, returns the
held value. -/
def Optional.orElseThrow {T : Type} (o : Optional T)
    (errorSupplier : Option (Unit → Error)) : Except Error T :=
  match o.value with
  | .val v => .ok v
  | _ =>
    match errorSupplier with
    | some f => .error (f ())
    | none => .error ⟨"No value present in Optional"⟩

/-- `ifPresent(consumer)`: invokes the consumer once iff present.  Modelled
by the number of invocations (the consumer is side-effecting in the
source). -/
def Optional.ifPresentProbe {T : Type} (o : Optional T) : Nat :=
  match o.value with
  | .val _ => 1
  | _ => 0

/-- `equals(other)`: both present with `===`-equal raw values, or both
empty. -/
def Optional.equals {T : Type} [DecidableEq T] (o other : Optional T) :
    Bool :=
  match o.value, other.value with
  | .val a, .val b => a = b
  | .val _, _ => false
  | _, .val _ => false
  | _, _ => true

/-- `Optional.of(value)`: the public factory, delegating to
`createOptional`. -/
def Optional.of {T : Type} (value : Nullable T) : Optional T :=
  createOptional value

/-- `Optional.empty()`: `createOptional(undefined)`. -/
def Optional.empty {T : Type} : Optional T :=
  createOptional .undefined

/-- `Optional.ofNullable(value)`: alias of `of`. -/
def Optional.ofNullable {T : Type} (value : Nullable T) : Optional T :=
  createOptional value

/-! ### `refAsOptional`: two-way adapter over an external cell

The Vue ref is modelled by its current raw content, `Nullable T`; the
computed view's getter and setter become one function each. -/

/-- The getter of the computed view returned by `refAsOptional`:
`Optional.of(source.value)`. -/
def refAsOptionalGet {T : Type} (source : Nullable T) : Optional T :=
  Optional.of source

/-- The setter of the computed view returned by `refAsOptional`:
`source.value = newOptional.unwrap()`, returning the cell's new content. -/
def refAsOptionalSet {T : Type} (newOptional : Optional T) : Nullable T :=
  newOptional.unwrap

/-- `optionalPath(obj, accessor)`: `Optional.of(obj).map(accessor)`. -/
def optionalPath {T R : Type} (obj : Nullable T)
    (accessor : T → Nullable R) : Optional R :=
  (Optional.of obj).map accessor

/-- Instrumented `optionalPath`, counting accessor invocations via
`mapProbe`. -/
def optionalPathProbe {T R : Type} (obj : Nullable T)
    (accessor : T → Nullable R) : Optional R × Nat :=
  (Optional.of obj).mapProbe accessor

/-- `optionalPath` with an accessor that may throw: the source wraps the
call in no try/catch, so a thrown error passes through (`mapE`). -/
def optionalPathE {T R : Type} (obj : Nullable T)
    (accessor : T → Except Error (Nullable R)) : Except Error (Optional R) :=
  (Optional.of obj).mapE accessor

/-- `orElseGetAsync(optional, supplier)`:
`optional.isPresent() ? optional.get() : await supplier()`.  The supplier's
promise is modelled by its settlement, so a rejection (`.error`) is returned
as the rejection of `orElseGetAsync`'s own promise — nothing is caught. -/
def orElseGetAsync {T : Type} (optional : Optional T)
    (supplier : Unit → Except Error T) : Except Error T :=
  if optional.isPresent then optional.get else supplier ()

/-- Instrumented `orElseGetAsync`: how many times the supplier is
invoked. -/
def orElseGetAsyncProbe {T : Type} (optional : Optional T) : Nat :=
  if optional.isPresent then 0 else 1

/-! ### `useReactiveOptional`: a container owning a private cell

The container's observable state is the cell's raw content plus the log of
reports made to the diagnostic collaborator (`console.error`). -/

/-- The observable state of a `useReactiveOptional` container: the private
cell `valueRef` and the list of diagnostic reports issued so far (each a
message-prefix/error pair, as passed to `console.error`). -/
structure ContainerState (T : Type) where
  valueRef : Nullable T
  log : List (String × Error)
deriving Repr, DecidableEq

/-- `useReactiveOptional(initialValue)`: creates the container with the
cell holding the initial raw value and nothing reported yet.  (The source's
default for `initialValue` is `undefined`.) -/
def useReactiveOptional {T : Type} (initialValue : Nullable T) :
    ContainerState T :=
  ⟨initialValue, []⟩

/-- The getter of the container's derived `optional` view:
`Optional.of(valueRef.value)`. -/
def containerOptionalGet {T : Type} (s : ContainerState T) : Optional T :=
  Optional.of s.valueRef

/-- The setter of the container's derived `optional` view:
`valueRef.value = newOptional.unwrap()`. -/
def containerOptionalSet {T : Type} (s : ContainerState T)
    (newOptional : Optional T) : ContainerState T :=
  { s with valueRef := newOptional.unwrap }

/-- `setAsync(promise)`: awaits the promise; on fulfilment stores the
result into the cell; on rejection reports once to `console.error` and
stores `undefined`.  The second component is the settlement of `setAsync`'s
own returned promise — it fulfils on both paths because the catch swallows
the failure. -/
def setAsync {T : Type} (s : ContainerState T)
    (promise : Except Error (Nullable T)) :
    ContainerState T × Except Error Unit :=
  match promise with
  | .ok result => ({ s with valueRef := result }, .ok ())
  | .error error =>
    ({ valueRef := .undefined,
       log := s.log ++ [("useReactiveOptional setAsync failed:", error)] },
     .ok ())

/-! ### `useMaybe` composable (the unnamed source file) -/

/-- The state behind a `MaybeOperations<T>` object returned by `useMaybe`:
the computed `maybeValue` it closes over. -/
structure MaybeOps (T : Type) where
  value : Nullable T
deriving Repr, DecidableEq

/-- `useMaybe(value)`: wraps the raw nullable value. -/
def useMaybe {T : Type} (value : Nullable T) : MaybeOps T :=
  ⟨value⟩

/-- `hasValue`: `maybeValue !== null && maybeValue !== undefined`. -/
def MaybeOps.hasValue {T : Type} (m : MaybeOps T) : Bool :=
  match m.value with
  | .val _ => true
  | _ => false

/-- `isEmpty`: `maybeValue === null || maybeValue === undefined`. -/
def MaybeOps.isEmpty {T : Type} (m : MaybeOps T) : Bool :=
  match m.value with
  | .val _ => false
  | _ => true

/-- `unwrap`: the raw underlying nullable value. -/
def MaybeOps.unwrap {T : Type} (m : MaybeOps T) : Nullable T :=
  m.value

/-- `useMaybe`'s `map(fn)`:
`useMaybe(hasValue ? fn(maybeValue) : undefined)`. -/
def MaybeOps.map {T R : Type} (m : MaybeOps T) (fn : T → Nullable R) :
    MaybeOps R :=
  match m.value with
  | .val v => useMaybe (fn v)
  | _ => useMaybe .undefined

/-- Instrumented `MaybeOps.map`, counting `fn` invocations. -/
def MaybeOps.mapProbe {T R : Type} (m : MaybeOps T) (fn : T → Nullable R) :
    MaybeOps R × Nat :=
  match m.value with
  | .val v => (useMaybe (fn v), 1)
  | _ => (useMaybe .undefined, 0)

/-- `MaybeOps.map` with an accessor that may throw (`Except Error`): the
source computes `fn(maybeValue.value)` with no try/catch around the call,
so a thrown error passes through. -/
def MaybeOps.mapE {T R : Type} (m : MaybeOps T)
    (fn : T → Except Error (Nullable R)) : Except Error (MaybeOps R) :=
  match m.value with
  | .val v =>
    match fn v with
    | .ok mapped => .ok (useMaybe mapped)
    | .error e => .error e
  | _ => .ok (useMaybe .undefined)

/-- `useMaybePath(obj, accessor)`: `useMaybe(obj).map(accessor)`. -/
def useMaybePath {T R : Type} (obj : Nullable T)
    (accessor : T → Nullable R) : MaybeOps R :=
  (useMaybe obj).map accessor

/-- Instrumented `useMaybePath`, counting accessor invocations. -/
def useMaybePathProbe {T R : Type} (obj : Nullable T)
    (accessor : T → Nullable R) : MaybeOps R × Nat :=
  (useMaybe obj).mapProbe accessor

/-- `useMaybePath` with an accessor that may throw: neither `useMaybePath`
nor `useMaybe`'s `map` contains a try/catch, so a thrown error passes
through (`MaybeOps.mapE`). -/
def useMaybePathE {T R : Type} (obj : Nullable T)
    (accessor : T → Except Error (Nullable R)) : Except Error (MaybeOps R) :=
  (useMaybe obj).mapE accessor

/-! ## Claim theorems -/

/-- C1: for every Optional and mapper, `map` on an Absent receiver returns
an Absent Optional without invoking the mapper (probe count 0); on
`Present(v)` it returns `Optional.of(fn(v))` (probe count 1), so a mapper
returning an absence marker yields an Absent result. -/
theorem C1_map_semantics {T R : Type} (o : Optional T) (f : T → Nullable R) :
    (o.isEmpty = true →
      o.map f = Optional.empty ∧ (o.mapProbe f).2 = 0)
    ∧ (∀ v, o.value = Nullable.val v →
      o.map f = Optional.of (f v)
      ∧ (o.mapProbe f).2 = 1
      ∧ ((f v).isAbsent = true → (o.map f).isEmpty = true)) := by
  obtain ⟨n⟩ := o
  constructor
  · intro h
    cases n with
    | val v => simp [Optional.isEmpty] at h
    | null => exact ⟨rfl, rfl⟩
    | undefined => exact ⟨rfl, rfl⟩
  · intro v hv
    cases n with
    | val w =>
      cases hv
      refine ⟨rfl, rfl, ?_⟩
      intro habs
      show (createOptional (f v)).isEmpty = true
      cases hfv : f v <;> simp [Nullable.isAbsent, hfv] at habs ⊢ <;>
        rfl
    | null => cases hv
    | undefined => cases hv

/-- Witness for C1 at concrete inputs: the empty Optional mapped with a
successor function stays empty with zero mapper calls, and a present
Optional mapped with a null-returning mapper becomes Absent. -/
theorem C1_map_semantics_witness :
    ((Optional.empty : Optional Nat).map fun n => Nullable.val (n + 1))
        = Optional.empty
    ∧ ((Optional.empty : Optional Nat).mapProbe fun n =>
        Nullable.val (n + 1)).2 = 0
    ∧ ((Optional.of (Nullable.val 4)).map fun _ : Nat =>
        (Nullable.null : Nullable Nat)).isEmpty = true := by
  refine ⟨?_, ?_, ?_⟩
  · exact ((C1_map_semantics Optional.empty _).1 rfl).1
  · exact ((C1_map_semantics Optional.empty _).1 rfl).2
  · exact ((C1_map_semantics (Optional.of (Nullable.val 4)) _).2 4 rfl).2.2
      rfl

/-- C2: `flatMap` is behaviorally identical to `map`: for every Optional
and mapper the results are equal, hence have the same presence state and
the same unwrapped value. -/
theorem C2_flatMap_equals_map {T R : Type} (o : Optional T)
    (f : T → Nullable R) :
    o.flatMap f = o.map f
    ∧ (o.flatMap f).isPresent = (o.map f).isPresent
    ∧ (o.flatMap f).unwrap = (o.map f).unwrap := by
  obtain ⟨n⟩ := o
  refine ⟨?_, ?_, ?_⟩ <;> cases n <;> rfl

/-- C3: `setAsync` on a fulfilled promise stores the resolved raw value
into the cell (Present view for a non-absent result, Absent view for
either absence marker) and reports nothing; on a rejected promise it
appends exactly one report to the diagnostic log, leaves the state Absent,
and its own returned promise still fulfils (the rejection is swallowed). -/
theorem C3_setAsync_behaviour {T : Type} (s : ContainerState T) (v : T)
    (r : Nullable T) (e : Error) :
    (setAsync s (.ok r)).1.valueRef = r
    ∧ (setAsync s (.ok r)).1.log = s.log
    ∧ (setAsync s (.ok r)).2 = .ok ()
    ∧ (containerOptionalGet (setAsync s (.ok (Nullable.val v))).1).isPresent
        = true
    ∧ (containerOptionalGet (setAsync s (.ok (Nullable.val v))).1).unwrap
        = Nullable.val v
    ∧ (containerOptionalGet
        (setAsync s (.ok (.null : Nullable T))).1).isEmpty = true
    ∧ (containerOptionalGet
        (setAsync s (.ok (.undefined : Nullable T))).1).isEmpty = true
    ∧ (setAsync s (.error e)).1.log
        = s.log ++ [("useReactiveOptional setAsync failed:", e)]
    ∧ (containerOptionalGet (setAsync s (.error e)).1).isEmpty = true
    ∧ (setAsync s (.error e)).2 = .ok () := by
  exact ⟨rfl, rfl, rfl, rfl, rfl, rfl, rfl, rfl, rfl, rfl⟩

/-- C4: `Optional.of` of any actual value is Present and unwraps to that
value (presence is decided by marker identity, so this holds for every
value, falsy ones included), while `Optional.of` of either absence marker
is empty. -/
theorem C4_presence_by_marker_identity {T : Type} (v : T) :
    (Optional.of (Nullable.val v)).isPresent = true
    ∧ (Optional.of (Nullable.val v)).unwrap = Nullable.val v
    ∧ (Optional.of (.null : Nullable T)).isEmpty = true
    ∧ (Optional.of (.undefined : Nullable T)).isEmpty = true := by
  exact ⟨rfl, rfl, rfl, rfl⟩

/-- C5 counterexample: the default error raised by `get()` on an empty
Optional carries the message "No value present in Optional", not the
message "no value present" stated by the claim. -/
theorem C5_default_message_counterexample :
    (Optional.empty : Optional Nat).get
      = Except.error ⟨"No value present in Optional"⟩
    ∧ (⟨"No value present in Optional"⟩ : Error)
        ≠ (⟨"no value present"⟩ : Error) := by
  exact ⟨rfl, by decide⟩

/-- C5 (amended): `get` and `orElseThrow` raise an error iff the Optional
is Absent — the default error with message "No value present in Optional"
when no factory is supplied, the factory's error otherwise — and `map`
with a non-throwing mapper never throws (the remaining operations are
total functions of the embedding and cannot throw). -/
theorem C5_throwing_behaviour {T : Type} (o : Optional T)
    (es : Unit → Error) :
    (o.isEmpty = true →
      o.get = .error ⟨"No value present in Optional"⟩
      ∧ o.orElseThrow none = .error ⟨"No value present in Optional"⟩
      ∧ o.orElseThrow (some es) = .error (es ()))
    ∧ (o.isPresent = true →
      ∃ v, o.value = Nullable.val v
        ∧ o.get = .ok v
        ∧ o.orElseThrow none = .ok v
        ∧ o.orElseThrow (some es) = .ok v)
    ∧ (∀ (R : Type) (g : T → Except Error (Nullable R)),
      (∀ v, ∃ r, g v = .ok r) → ∃ res, o.mapE g = .ok res) := by
  obtain ⟨n⟩ := o
  refine ⟨?_, ?_, ?_⟩
  · intro h
    cases n with
    | val v => simp [Optional.isEmpty] at h
    | null => exact ⟨rfl, rfl, rfl⟩
    | undefined => exact ⟨rfl, rfl, rfl⟩
  · intro h
    cases n with
    | val v => exact ⟨v, rfl, rfl, rfl, rfl⟩
    | null => simp [Optional.isPresent] at h
    | undefined => simp [Optional.isPresent] at h
  · intro R g hg
    cases n with
    | val v =>
      obtain ⟨r, hr⟩ := hg v
      exact ⟨createOptional r, by simp [Optional.mapE, hr]⟩
    | null => exact ⟨createOptional .undefined, rfl⟩
    | undefined => exact ⟨createOptional .undefined, rfl⟩

/-- Witness for C5 at concrete inputs: the empty Optional's `get` and
`orElseThrow` raise (default and custom error), a present Optional's do
not, and `mapE` with a non-throwing mapper succeeds. -/
theorem C5_throwing_behaviour_witness :
    ((Optional.empty : Optional Nat).get
        = .error ⟨"No value present in Optional"⟩
      ∧ (Optional.empty : Optional Nat).orElseThrow none
        = .error ⟨"No value present in Optional"⟩
      ∧ (Optional.empty : Optional Nat).orElseThrow
          (some fun _ => ⟨"boom"⟩) = .error ⟨"boom"⟩)
    ∧ (∃ v, (Optional.of (Nullable.val 3)).value = Nullable.val v
        ∧ (Optional.of (Nullable.val 3)).get = .ok v
        ∧ (Optional.of (Nullable.val 3)).orElseThrow none = .ok v
        ∧ (Optional.of (Nullable.val 3)).orElseThrow
            (some fun _ => ⟨"boom"⟩) = .ok v)
    ∧ (∃ res, (Optional.of (Nullable.val 3)).mapE
        (fun n => .ok (Nullable.val (n + 1))) = .ok res) := by
  refine ⟨?_, ?_, ?_⟩
  · exact (C5_throwing_behaviour (Optional.empty : Optional Nat)
      (fun _ => ⟨"boom"⟩)).1 rfl
  · exact (C5_throwing_behaviour (Optional.of (Nullable.val 3))
      (fun _ => ⟨"boom"⟩)).2.1 rfl
  · exact (C5_throwing_behaviour (Optional.of (Nullable.val 3))
      (fun _ => ⟨"boom"⟩)).2.2 Nat (fun n => .ok (Nullable.val (n + 1)))
      (fun v => ⟨Nullable.val (v + 1), rfl⟩)

/-- C6: writing `Optional.of(x)` through either derived view stores `x`
into the underlying cell and an immediately subsequent read unwraps to
`x`; writing `Optional.empty()` makes the subsequent read Absent.  Read
after write is function composition, so there is no staleness window. -/
theorem C6_round_trip {T : Type} (x : T) (s : ContainerState T) :
    refAsOptionalSet (Optional.of (Nullable.val x)) = Nullable.val x
    ∧ (refAsOptionalGet
        (refAsOptionalSet (Optional.of (Nullable.val x)))).unwrap
        = Nullable.val x
    ∧ (refAsOptionalGet
        (refAsOptionalSet (Optional.of (Nullable.val x)))).isPresent = true
    ∧ (refAsOptionalGet
        (refAsOptionalSet (Optional.empty : Optional T))).isEmpty = true
    ∧ (containerOptionalSet s (Optional.of (Nullable.val x))).valueRef
        = Nullable.val x
    ∧ (containerOptionalGet
        (containerOptionalSet s (Optional.of (Nullable.val x)))).unwrap
        = Nullable.val x
    ∧ (containerOptionalGet
        (containerOptionalSet s (Optional.of (Nullable.val x)))).isPresent
        = true
    ∧ (containerOptionalGet
        (containerOptionalSet s Optional.empty)).isEmpty = true := by
  exact ⟨rfl, rfl, rfl, rfl, rfl, rfl, rfl, rfl⟩

/-- C7: `orElseGetAsync` on a Present Optional returns the held value with
the supplier never invoked; on an Absent Optional the supplier is invoked
exactly once and its settlement — fulfilment or rejection — is returned
unchanged, so a rejection propagates to the caller. -/
theorem C7_orElseGetAsync_behaviour {T : Type} (v : T)
    (sup : Unit → Except Error T) :
    orElseGetAsync (Optional.of (Nullable.val v)) sup = .ok v
    ∧ orElseGetAsyncProbe (Optional.of (Nullable.val v)) = 0
    ∧ orElseGetAsync (Optional.of (.null : Nullable T)) sup = sup ()
    ∧ orElseGetAsyncProbe (Optional.of (.null : Nullable T)) = 1
    ∧ orElseGetAsync (Optional.of (.undefined : Nullable T)) sup = sup ()
    ∧ orElseGetAsyncProbe (Optional.of (.undefined : Nullable T)) = 1 := by
  exact ⟨rfl, rfl, rfl, rfl, rfl, rfl⟩

/-- C8: `optionalPath` is definitionally `Optional.of(obj).map(accessor)`;
`useMaybePath` agrees with it in presence state and unwrapped value; on an
absent source neither invokes the accessor (probe count 0); and a throwing
accessor's error passes through both `optionalPathE` and `useMaybePathE`
untouched (on a present source each returns exactly the accessor's
settlement, wrapped on success), never converted to Absent. -/
theorem C8_path_helpers {T R : Type} (obj : Nullable T)
    (acc : T → Nullable R) (v : T)
    (accE : T → Except Error (Nullable R)) :
    optionalPath obj acc = (Optional.of obj).map acc
    ∧ (useMaybePath obj acc).unwrap = (optionalPath obj acc).unwrap
    ∧ (useMaybePath obj acc).hasValue = (optionalPath obj acc).isPresent
    ∧ (optionalPathProbe (.null : Nullable T) acc).2 = 0
    ∧ (optionalPathProbe (.undefined : Nullable T) acc).2 = 0
    ∧ (useMaybePathProbe (.null : Nullable T) acc).2 = 0
    ∧ (useMaybePathProbe (.undefined : Nullable T) acc).2 = 0
    ∧ optionalPathE (.null : Nullable T) accE = .ok (createOptional .undefined)
    ∧ optionalPathE (.undefined : Nullable T) accE
        = .ok (createOptional .undefined)
    ∧ optionalPathE (Nullable.val v) accE
        = Except.map createOptional (accE v)
    ∧ useMaybePathE (.null : Nullable T) accE = .ok (useMaybe .undefined)
    ∧ useMaybePathE (.undefined : Nullable T) accE
        = .ok (useMaybe .undefined)
    ∧ useMaybePathE (Nullable.val v) accE
        = Except.map useMaybe (accE v) := by
  refine ⟨rfl, ?_, ?_, rfl, rfl, rfl, rfl, rfl, rfl, ?_, rfl, rfl, ?_⟩
  · cases obj <;> rfl
  · cases obj <;> rfl
  · show (Optional.of (Nullable.val v)).mapE accE
      = Except.map createOptional (accE v)
    simp only [Optional.mapE, Optional.of, createOptional]
    cases accE v <;> rfl
  · show (useMaybe (Nullable.val v)).mapE accE
      = Except.map useMaybe (accE v)
    simp only [MaybeOps.mapE, useMaybe]
    cases accE v <;> rfl

/-- C9: operations never mutate the receiver: for an Optional built from a
raw value the receiver still unwraps to that value and keeps its presence
after `map`, `flatMap` and `filter` are applied, each of which returns a
fresh wrapper built by the factory. -/
theorem C9_structural_immutability {T R : Type} (n : Nullable T) (x : T)
    (f : T → Nullable R) (p : T → Bool) :
    (Optional.of n).unwrap = n
    ∧ (Optional.of (Nullable.val x)).map f = Optional.of (f x)
    ∧ (Optional.of (Nullable.val x)).flatMap f = Optional.of (f x)
    ∧ (Optional.of (Nullable.val x)).unwrap = Nullable.val x
    ∧ (Optional.of (Nullable.val x)).isPresent = true
    ∧ ((Optional.of (Nullable.val x)).filter p).value
        = (if p x then Nullable.val x else .undefined) := by
  refine ⟨rfl, rfl, rfl, rfl, rfl, ?_⟩
  show (if p x then createOptional (Nullable.val x)
        else createOptional .undefined).value
      = (if p x then Nullable.val x else .undefined)
  cases p x <;> rfl

/-- C10: an Absent result of `map` (or `flatMap`) always carries the
`undefined` marker, even when the source held `null`, whereas `filter` on
an Absent Optional preserves the stored marker: `of(null).filter(p)` still
unwraps to `null`. -/
theorem C10_marker_normalization {T R : Type} (f : T → Nullable R)
    (p : T → Bool) :
    ((Optional.of (.null : Nullable T)).map f).unwrap = .undefined
    ∧ ((Optional.of (.undefined : Nullable T)).map f).unwrap = .undefined
    ∧ ((Optional.of (.null : Nullable T)).flatMap f).unwrap = .undefined
    ∧ ((Optional.of (.undefined : Nullable T)).flatMap f).unwrap = .undefined
    ∧ ((Optional.of (.null : Nullable T)).filter p).unwrap = .null
    ∧ ((Optional.of (.undefined : Nullable T)).filter p).unwrap = .undefined := by
  exact ⟨rfl, rfl, rfl, rfl, rfl, rfl⟩

end VueOptional
